import Mathlib

/-!
Verification of the permission-aware storage interface and schema validation
layer of the solarforecastarbiter API (files `sfa_api/utils/storage_interface.py`
and `sfa_api/schema.py`), as a shallow embedding in Lean 4.

The underlying MySQL engine (stored procedures) is an external collaborator;
it is modelled as a black box whose per-call outcome is either a list of rows
or an engine error carrying a Python exception class and a numeric error code,
exactly the data the Python layer inspects.
-/

namespace SfaApi

/-- Python exception classes of the engine errors that `try_query` catches
(`pymysql.err.OperationalError`, `IntegrityError`, `InternalError`). -/
inductive PyExcClass where
  | operationalError
  | integrityError
  | internalError
deriving Repr, DecidableEq

/-- The error taxonomy raised by the storage interface: `StorageAuthError`,
`DeleteRestrictionError` and `BadAPIRequest` from `sfa_api.utils.errors`,
plus `engineError` for an engine exception re-raised unclassified. -/
inductive SfaError where
  | storageAuthError (detail : Option String)
  | deleteRestrictionError
  | badAPIRequest (field : String) (msg : String)
  | engineError (cls : PyExcClass) (code : Nat) (msg : String)
deriving Repr, DecidableEq

/-- Whether an `SfaError` is the `StorageAuthError` exception class. -/
def SfaError.isStorageAuthError : SfaError → Bool
  | .storageAuthError _ => true
  | _ => false

/-- Whether a call completed without raising. -/
def exceptOk {ε α : Type} : Except ε α → Bool
  | .ok _ => true
  | .error _ => false

/-- Outcome of one call into the engine: a list of rows fetched by the cursor,
or an engine exception (class, error code, message). -/
inductive ProcResult (α : Type) where
  | rows (rs : List α)
  | err (cls : PyExcClass) (code : Nat) (msg : String)
deriving Repr, DecidableEq

/-- The engine error codes that `try_query` maps to `StorageAuthError`
(source line 138: 1142, 1143, 1411, 1216). -/
def isAuthErrorCode (c : Nat) : Bool :=
  c == 1142 || c == 1143 || c == 1411 || c == 1216

/-- The error mapping of `try_query` (storage_interface.py lines 132-143):
engine error codes 1142/1143/1411/1216 become `StorageAuthError` carrying the
engine message, 1451 becomes `DeleteRestrictionError`, anything else is
re-raised unchanged. -/
def tryQueryErr (cls : PyExcClass) (code : Nat) (msg : String) : SfaError :=
  if isAuthErrorCode code then .storageAuthError (some msg)
  else if code == 1451 then .deleteRestrictionError
  else .engineError cls code msg

/-- Embedding of `try_query` applied to one procedure call. -/
def try_query {α : Type} : ProcResult α → Except SfaError (List α)
  | .rows rs => .ok rs
  | .err cls code msg => .error (tryQueryErr cls code msg)

/-- Embedding of `_call_procedure_for_single` (lines 164-172): fetch the
first row of the result; an `IndexError` on an empty result set is turned
into a bare `StorageAuthError()` with no detail. -/
def callProcedureForSingle {α : Type} (r : ProcResult α) : Except SfaError α :=
  match try_query r with
  | .error e => .error e
  | .ok [] => .error (.storageAuthError none)
  | .ok (x :: _) => .ok x

/-! ## Engine state for metadata reads and listings

The stored procedures enforce the RBAC graph themselves (spec section 4.1:
the engine is the authorization oracle).  For a single-object read procedure
the outcome is a one-row result when the object exists and the caller may
read it, and an empty result otherwise; a list procedure returns the subset
of rows the caller may read.  The state below captures exactly that contract.
-/

/-- An observation row as returned by `list_observations` / `read_observation`
(only the fields the embedded logic inspects). -/
structure ObsRow where
  obs_id : String
  site_id : String
deriving Repr, DecidableEq

/-- A forecast (or CDF forecast group) row: tied to exactly one of a site or
an aggregate, mirroring the nullable `site_id` / `aggregate_id` columns. -/
structure FxRow where
  fx_id : String
  site_id : Option String
  aggregate_id : Option String
deriving Repr, DecidableEq

/-- Engine-side state: the stored objects and the RBAC read relation
(`canRead user objectId`), which the stored procedures consult. -/
structure Db where
  sites : List String
  aggregates : List String
  observations : List ObsRow
  forecasts : List FxRow
  cdfGroups : List FxRow
  roles : List String
  permissions : List String
  reports : List String
  canRead : String → String → Bool

/-- Rows returned by a single-object read procedure for an object identified
by its id in `ids`: one row when present and readable, none otherwise
(missing object and denied object are both the empty result set). -/
def singleReadRows (ids : List String) (canRead : String → String → Bool)
    (user oid : String) : List String :=
  if ids.contains oid && canRead user oid then [oid] else []

/-- Generic single-object read: engine row lookup fed through
`_call_procedure_for_single`. -/
def readById (ids : List String) (canRead : String → String → Bool)
    (user oid : String) : Except SfaError String :=
  callProcedureForSingle (ProcResult.rows (singleReadRows ids canRead user oid))

/-- Embedding of `read_site` (lines 529-549). -/
def read_site (db : Db) (user site_id : String) : Except SfaError String :=
  readById db.sites db.canRead user site_id

/-- Embedding of `read_aggregate` (lines 1600-1616). -/
def read_aggregate (db : Db) (user aggregate_id : String) : Except SfaError String :=
  readById db.aggregates db.canRead user aggregate_id

/-- Embedding of `read_role` (lines 1011-1032). -/
def read_role (db : Db) (user role_id : String) : Except SfaError String :=
  readById db.roles db.canRead user role_id

/-- Embedding of `read_permission` (lines 1100-1121). -/
def read_permission (db : Db) (user permission_id : String) : Except SfaError String :=
  readById db.permissions db.canRead user permission_id

/-- Embedding of `read_report` (lines 1288-1310), restricted to the
authorization-relevant single-row fetch. -/
def read_report (db : Db) (user report_id : String) : Except SfaError String :=
  readById db.reports db.canRead user report_id

/-- Rows returned by the `read_observation` procedure. -/
def obsReadRows (db : Db) (user oid : String) : List ObsRow :=
  match db.observations.find? (fun o => o.obs_id == oid) with
  | some o => if db.canRead user oid then [o] else []
  | none => []

/-- Embedding of `read_observation` (lines 297-313). -/
def read_observation (db : Db) (user observation_id : String) :
    Except SfaError ObsRow :=
  callProcedureForSingle (ProcResult.rows (obsReadRows db user observation_id))

/-- Rows returned by the `read_forecast` / `read_cdf_forecasts_group`
procedures over a forecast-shaped table. -/
def fxReadRows (table : List FxRow) (canRead : String → String → Bool)
    (user fid : String) : List FxRow :=
  match table.find? (fun f => f.fx_id == fid) with
  | some f => if canRead user fid then [f] else []
  | none => []

/-- Embedding of `read_forecast` (lines 463-479). -/
def read_forecast (db : Db) (user forecast_id : String) : Except SfaError FxRow :=
  callProcedureForSingle
    (ProcResult.rows (fxReadRows db.forecasts db.canRead user forecast_id))

/-- Embedding of `read_cdf_forecast_group` (lines 818-834). -/
def read_cdf_forecast_group (db : Db) (user forecast_id : String) :
    Except SfaError FxRow :=
  callProcedureForSingle
    (ProcResult.rows (fxReadRows db.cdfGroups db.canRead user forecast_id))

/-! ## Listing operations -/

/-- Rows returned by the `list_observations` procedure: the subset the caller
may read (engine contract, spec section 4.1). -/
def listObservationsRows (db : Db) (user : String) : List ObsRow :=
  db.observations.filter (fun o => db.canRead user o.obs_id)

/-- Rows returned by a forecast-shaped list procedure. -/
def listFxRows (table : List FxRow) (canRead : String → String → Bool)
    (user : String) : List FxRow :=
  table.filter (fun f => canRead user f.fx_id)

/-- Embedding of `list_observations` (lines 332-357): when a `site_id` filter
is supplied the site is first read via `read_site` (whose failure propagates),
then the listed rows are filtered on the site_id column. -/
def list_observations (db : Db) (user : String) (site_id : Option String) :
    Except SfaError (List ObsRow) :=
  match (match site_id with
         | some sid => (read_site db user sid).map (fun _ => ())
         | none => .ok ()) with
  | .error e => .error e
  | .ok () =>
    match try_query (ProcResult.rows (listObservationsRows db user)) with
    | .error e => .error e
    | .ok obs =>
      .ok (obs.filter (fun o =>
        match site_id with
        | none => true
        | some sid => o.site_id == sid))

/-- The row filter of `list_forecasts` / `list_cdf_forecast_groups`
(lines 521-525): keep `fx` when no filter is given, or when the non-null
filter matches the corresponding (nullable) column. -/
def fxFilter (site_id aggregate_id : Option String) (fx : FxRow) : Bool :=
  (site_id.isNone && aggregate_id.isNone) ||
    (site_id.isSome && fx.site_id == site_id) ||
    (aggregate_id.isSome && fx.aggregate_id == aggregate_id)

/-- Embedding of `list_forecasts` (lines 498-526): a supplied `site_id` is
first read via `read_site`, a supplied `aggregate_id` via `read_aggregate`;
failures of either propagate. -/
def list_forecasts (db : Db) (user : String)
    (site_id aggregate_id : Option String) : Except SfaError (List FxRow) :=
  match (match site_id with
         | some sid => (read_site db user sid).map (fun _ => ())
         | none => .ok ()) with
  | .error e => .error e
  | .ok () =>
    match (match aggregate_id with
           | some aid => (read_aggregate db user aid).map (fun _ => ())
           | none => .ok ()) with
    | .error e => .error e
    | .ok () =>
      match try_query (ProcResult.rows (listFxRows db.forecasts db.canRead user)) with
      | .error e => .error e
      | .ok fxs => .ok (fxs.filter (fxFilter site_id aggregate_id))

/-- Embedding of `list_cdf_forecast_groups` (lines 854-882), identical in
structure to `list_forecasts` over the CDF group table. -/
def list_cdf_forecast_groups (db : Db) (user : String)
    (site_id aggregate_id : Option String) : Except SfaError (List FxRow) :=
  match (match site_id with
         | some sid => (read_site db user sid).map (fun _ => ())
         | none => .ok ()) with
  | .error e => .error e
  | .ok () =>
    match (match aggregate_id with
           | some aid => (read_aggregate db user aid).map (fun _ => ())
           | none => .ok ()) with
    | .error e => .error e
    | .ok () =>
      match try_query (ProcResult.rows (listFxRows db.cdfGroups db.canRead user)) with
      | .error e => .error e
      | .ok fxs => .ok (fxs.filter (fxFilter site_id aggregate_id))

/-- A concrete engine state used to evaluate the theorems: one site, one
observation belonging to it; the caller may read the observation but not
the site. -/
def dbObsOnly : Db :=
  { sites := ["site1"]
    aggregates := []
    observations := [⟨"obs1", "site1"⟩]
    forecasts := []
    cdfGroups := []
    roles := []
    permissions := []
    reports := []
    canRead := fun _ oid => oid == "obs1" }

/-! ## RBAC edge creation -/

/-- Embedding of `add_role_to_user` (lines 939-969): the engine call runs
through `try_query`; a surviving `IntegrityError` with code 1062 (duplicate
key) is turned into `BadAPIRequest(user="User already granted role.")`;
other `IntegrityError` codes are suppressed by the bare handler. -/
def add_role_to_user (r : ProcResult Unit) : Except SfaError Unit :=
  match try_query r with
  | .ok _ => .ok ()
  | .error (.engineError .integrityError code _) =>
      if code == 1062 then .error (.badAPIRequest "user" "User already granted role.")
      else .ok ()
  | .error e => .error e

/-- Embedding of `add_permission_to_role` (lines 1052-1077), same duplicate
handling with `BadAPIRequest(role="Role already contains permission.")`. -/
def add_permission_to_role (r : ProcResult Unit) : Except SfaError Unit :=
  match try_query r with
  | .ok _ => .ok ()
  | .error (.engineError .integrityError code _) =>
      if code == 1062 then .error (.badAPIRequest "role" "Role already contains permission.")
      else .ok ()
  | .error e => .error e

/-- Embedding of `add_object_to_permission` (lines 1190-1209): a plain
`_call_procedure` with no duplicate-key handling at the storage layer. -/
def add_object_to_permission (r : ProcResult Unit) : Except SfaError Unit :=
  match try_query r with
  | .ok _ => .ok ()
  | .error e => .error e

/-- Modelled from the spec: the HTTP view handler for
`POST /permissions/(id)/objects/(id)` is code of this repository that is not
under src/ (only its tests are, `sfa_api/tests/rbac/test_permissions.py`).
Per spec section 4.7 — creating an edge that already exists is a client
error (400) — and the test
`test_add_object_to_permission_object_already_exists`, the view maps the
duplicate-key engine error (IntegrityError 1062) escaping the storage layer
to a 400 `BadAPIRequest` with message "Permission already acts upon object." -/
def add_object_to_permission_view (r : ProcResult Unit) : Except SfaError Unit :=
  match add_object_to_permission r with
  | .error (.engineError .integrityError 1062 _) =>
      .error (.badAPIRequest "permission" "Permission already acts upon object.")
  | x => x

/-! ## Bulk time-series writes -/

/-- Embedding of `cursor.executemany` over the per-row
`CALL store_*_values(...)` statements (lines 227-234, 381-387, 633-639):
rows are inserted one by one into the open transaction; the first engine
exception aborts the loop. `rowAction r = none` means the engine accepted
row `r`; `some (cls, code, msg)` means that CALL raised. The accumulator is
the transaction buffer of rows inserted so far. -/
def executeMany {α : Type} (rowAction : α → Option (PyExcClass × Nat × String)) :
    List α → List α → Except (PyExcClass × Nat × String) (List α)
  | [], buf => .ok buf
  | r :: rest, buf =>
    match rowAction r with
    | none => executeMany rowAction rest (buf ++ [r])
    | some e => .error e

/-- Embedding of `store_observation_values` / `store_forecast_values` /
`store_cdf_forecast_values` (lines 206-235, 361-388, 617-640) combined with
the `get_cursor` context manager (lines 110-129): the whole batch runs in
one transaction; `try_query` maps an engine exception, `get_cursor` rolls
the connection back on any exception and commits otherwise. The pair is
(call outcome, committed rows after the call). -/
def store_values_batch {α : Type} (committed : List α)
    (rowAction : α → Option (PyExcClass × Nat × String)) (rows : List α) :
    Except SfaError Unit × List α :=
  match executeMany rowAction rows [] with
  | .ok buf => (.ok (), committed ++ buf)
  | .error (cls, code, msg) => (.error (tryQueryErr cls code msg), committed)

/-! ## Time-series reads and their default bounds -/

/-- A timezone-aware timestamp, by its UTC calendar fields (the Python layer
passes `pd.Timestamp` values; microseconds are dropped by the converter). -/
structure PyDateTime where
  year : Nat
  month : Nat
  day : Nat
  hour : Nat
  minute : Nat
  second : Nat
deriving Repr, DecidableEq

/-- Source line 31: MINTIMESTAMP = pd.Timestamp("19700101T000001Z"). -/
def MINTIMESTAMP : PyDateTime := ⟨1970, 1, 1, 0, 0, 1⟩

/-- Source line 32: MAXTIMESTAMP = pd.Timestamp("20380119T031407Z"). -/
def MAXTIMESTAMP : PyDateTime := ⟨2038, 1, 19, 3, 14, 7⟩

/-- Embedding of `read_observation_values` (lines 238-268): omitted bounds
are replaced by `MINTIMESTAMP` / `MAXTIMESTAMP` before the
`read_observation_values` procedure is called; `engine` stands for that
range-scan call and receives the resolved bounds. -/
def read_observation_values {α : Type}
    (engine : String → PyDateTime → PyDateTime → α)
    (observation_id : String) (start stop : Option PyDateTime) : α :=
  let start := start.getD MINTIMESTAMP
  let stop := stop.getD MAXTIMESTAMP
  engine observation_id start stop

/-- Embedding of `_read_fx_values` (lines 391-402), shared by forecast and
CDF forecast value reads; the first argument of `engine` is the procedure
name. -/
def readFxValues {α : Type}
    (engine : String → String → PyDateTime → PyDateTime → α)
    (procedure_name forecast_id : String) (start stop : Option PyDateTime) : α :=
  let start := start.getD MINTIMESTAMP
  let stop := stop.getD MAXTIMESTAMP
  engine procedure_name forecast_id start stop

/-- Embedding of `read_forecast_values` (lines 405-423). -/
def read_forecast_values {α : Type}
    (engine : String → String → PyDateTime → PyDateTime → α)
    (forecast_id : String) (start stop : Option PyDateTime) : α :=
  readFxValues engine "read_forecast_values" forecast_id start stop

/-- Embedding of `read_cdf_forecast_values` (lines 643-661). -/
def read_cdf_forecast_values {α : Type}
    (engine : String → String → PyDateTime → PyDateTime → α)
    (forecast_id : String) (start stop : Option PyDateTime) : α :=
  readFxValues engine "read_cdf_forecast_values" forecast_id start stop

/-- Embedding of `read_aggregate_values` (lines 1706-1736):
the bound resolution is written `start or pd.Timestamp(...)`, same for `end`
(a `pd.Timestamp` is always truthy, `None` is falsy, so `or` substitutes the
literal exactly when the bound is omitted). -/
def read_aggregate_values {α : Type}
    (engine : String → PyDateTime → PyDateTime → α)
    (aggregate_id : String) (start stop : Option PyDateTime) : α :=
  let start := start.getD ⟨1970, 1, 1, 0, 0, 1⟩
  let stop := stop.getD ⟨2038, 1, 19, 3, 14, 7⟩
  engine aggregate_id start stop

/-! ## Aggregate membership mutations -/

/-- Embedding of `add_observation_to_aggregate` (lines 1654-1678): the
default `effective_from` is the literal `dt.datetime(1970, 1, 1, 0, 0, 1,
tzinfo=utc)`. The result is the argument triple passed to the engine
procedure. -/
def add_observation_to_aggregate (aggregate_id observation_id : String)
    (effective_from : Option PyDateTime) : String × String × PyDateTime :=
  (aggregate_id, observation_id, effective_from.getD ⟨1970, 1, 1, 0, 0, 1⟩)

/-- Embedding of `remove_observation_from_aggregate` (lines 1681-1703). The
default `effective_until=dt.datetime.now(dt.timezone.utc)` is a Python
default-argument expression, evaluated once when the module is imported:
`moduleLoadTime` is the value that evaluation produced. `callTime` is the
wall clock at the moment of the call; the compiled default cannot read it,
so it does not occur in the body. The result is the argument triple passed
to the engine procedure. -/
def remove_observation_from_aggregate (moduleLoadTime callTime : PyDateTime)
    (aggregate_id observation_id : String)
    (effective_until : Option PyDateTime) : String × String × PyDateTime :=
  (aggregate_id, observation_id, effective_until.getD moduleLoadTime)

/-! ## Schema validation: ModelingParameters (sfa_api/schema.py lines 135-242)

All thirteen fields of the marshmallow schema default to `None`
(`missing=None`); their numeric payload is irrelevant to the validator,
which only tests `is not None`, so the payload type is a parameter `V`. -/

structure ModelingParameters (V : Type) where
  ac_capacity : Option V
  dc_capacity : Option V
  temperature_coefficient : Option V
  tracking_type : Option String
  surface_tilt : Option V
  surface_azimuth : Option V
  axis_tilt : Option V
  axis_azimuth : Option V
  ground_coverage_ratio : Option V
  backtrack : Option V
  max_rotation_angle : Option V
  dc_loss_factor : Option V
  ac_loss_factor : Option V

/-- The field-level OneOf validator (fixed / single_axis) on
`tracking_type` (line 156), which runs before the schema-level validator. -/
def tracking_type_field_valid (tt : Option String) : Bool :=
  match tt with
  | none => true
  | some s => s == "fixed" || s == "single_axis"

/-- Test data[key] is not None for the twelve numeric/boolean fields. -/
def fieldNotNone {V : Type} (d : ModelingParameters V) : String → Bool
  | "ac_capacity" => d.ac_capacity.isSome
  | "dc_capacity" => d.dc_capacity.isSome
  | "temperature_coefficient" => d.temperature_coefficient.isSome
  | "surface_tilt" => d.surface_tilt.isSome
  | "surface_azimuth" => d.surface_azimuth.isSome
  | "axis_tilt" => d.axis_tilt.isSome
  | "axis_azimuth" => d.axis_azimuth.isSome
  | "ground_coverage_ratio" => d.ground_coverage_ratio.isSome
  | "backtrack" => d.backtrack.isSome
  | "max_rotation_angle" => d.max_rotation_angle.isSome
  | "dc_loss_factor" => d.dc_loss_factor.isSome
  | "ac_loss_factor" => d.ac_loss_factor.isSome
  | _ => false

/-- Set common_fields of validate_modeling_parameters (lines 208-210). -/
def common_fields : List String :=
  ["ac_capacity", "dc_capacity", "temperature_coefficient",
   "dc_loss_factor", "ac_loss_factor"]

/-- Set fixed_fields (line 211). -/
def fixed_fields : List String := ["surface_tilt", "surface_azimuth"]

/-- Set singleaxis_fields (lines 212-214). -/
def singleaxis_fields : List String :=
  ["axis_tilt", "axis_azimuth", "ground_coverage_ratio",
   "backtrack", "max_rotation_angle"]

/-- The error map of the `tracking_type is None` branch (lines 217-223):
every non-null field of the union of the three field sets, keyed by name. -/
def errorsNull {V : Type} (d : ModelingParameters V) : List (String × String) :=
  ((common_fields ++ fixed_fields ++ singleaxis_fields).filter
      (fun k => fieldNotNone d k)).map
    (fun k => (k, "Field must be null/none when tracking_type is none"))

/-- The error map of the tracking_type == "fixed" branch (lines 224-232):
every non-null single-axis field plus every null common/fixed field. -/
def errorsFixed {V : Type} (d : ModelingParameters V) : List (String × String) :=
  (singleaxis_fields.filter (fun k => fieldNotNone d k)).map
      (fun k => (k, "Field should be none with tracking_type=\x27fixed\x27")) ++
    ((common_fields ++ fixed_fields).filter (fun k => !fieldNotNone d k)).map
      (fun k => (k, "Value required when tracking_type=\x27fixed\x27"))

/-- The error map of the tracking_type == "single_axis" branch
(lines 233-242): every non-null fixed field plus every null
common/single-axis field. -/
def errorsSingleAxis {V : Type} (d : ModelingParameters V) :
    List (String × String) :=
  (fixed_fields.filter (fun k => fieldNotNone d k)).map
      (fun k => (k, "Field should be none with tracking_type=\x27single_axis\x27")) ++
    ((common_fields ++ singleaxis_fields).filter (fun k => !fieldNotNone d k)).map
      (fun k => (k, "Value required when tracking_type=\x27single_axis\x27"))

/-- Embedding of `ModelingParameters.validate_modeling_parameters`
(lines 206-242): per tracking type a complete error map keyed by field name
is built by dict comprehension and raised iff non-empty. The error value is
the list of (field, message) entries of that map. -/
def validate_modeling_parameters {V : Type} (d : ModelingParameters V) :
    Except (List (String × String)) Unit :=
  match d.tracking_type with
  | none =>
    if (errorsNull d).isEmpty then .ok () else .error (errorsNull d)
  | some tt =>
    if tt == "fixed" then
      if (errorsFixed d).isEmpty then .ok () else .error (errorsFixed d)
    else if tt == "single_axis" then
      if (errorsSingleAxis d).isEmpty then .ok () else .error (errorsSingleAxis d)
    else
      .ok ()

/-- Whether the error map contains an entry for field `k`. -/
def hasKey (e : List (String × String)) (k : String) : Bool :=
  e.any (fun p => p.1 == k)

/-- The three field classes of the spec (section 4.3) field partition. -/
inductive ParamClass where
  | common
  | fixedOnly
  | singleAxisOnly
deriving Repr, DecidableEq

/-- Spec-side classification of the twelve modeling-parameter fields. -/
def paramClass : String → Option ParamClass
  | "ac_capacity" => some .common
  | "dc_capacity" => some .common
  | "temperature_coefficient" => some .common
  | "dc_loss_factor" => some .common
  | "ac_loss_factor" => some .common
  | "surface_tilt" => some .fixedOnly
  | "surface_azimuth" => some .fixedOnly
  | "axis_tilt" => some .singleAxisOnly
  | "axis_azimuth" => some .singleAxisOnly
  | "ground_coverage_ratio" => some .singleAxisOnly
  | "backtrack" => some .singleAxisOnly
  | "max_rotation_angle" => some .singleAxisOnly
  | _ => none

/-- Spec-side requirement table (section 4.3): common fields are required for
"fixed" and "single_axis", fixed-only fields for "fixed", single-axis-only
fields for "single_axis"; every classified field not required for the
declared tracking type is forbidden. -/
def requiredFor (tt : Option String) : ParamClass → Bool
  | .common => tt == some "fixed" || tt == some "single_axis"
  | .fixedOnly => tt == some "fixed"
  | .singleAxisOnly => tt == some "single_axis"

/-- Spec-side per-field violation: a required field is violated when null, a
forbidden one when non-null. -/
def specFieldViolated {V : Type} (d : ModelingParameters V) (k : String) : Bool :=
  match paramClass k with
  | none => false
  | some c =>
    if requiredFor d.tracking_type c then !fieldNotNone d k else fieldNotNone d k

/-- All twelve partitioned field names. -/
def allParamFields : List String := common_fields ++ fixed_fields ++ singleaxis_fields

/-- A concrete all-null ModelingParameters payload (a plain weather station). -/
def dmpNull : ModelingParameters Unit :=
  ⟨none, none, none, none, none, none, none, none, none, none, none, none, none⟩

/-! ## Schema validation: cost parameters (schema.py lines 896-1096) -/

/-- Modelled from the spec: `ALLOWED_COST_FUNCTIONS` is imported from the
external `solarforecastarbiter.datamodel` package (not part of this
repository); spec section 4.4 fixes the cost types as constant, timeofday,
datetime and errorband. -/
def ALLOWED_COST_FUNCTIONS : List String :=
  ["constant", "timeofday", "datetime", "errorband"]

/-- Python `set(s)` of a string `s`: the set of its one-character strings. -/
def pyStringCharSet (s : String) : List String :=
  (s.data.map (fun c => String.mk [c])).eraseDups

/-- The option list of the `OneOf` validator on `BaseCostBand.cost_function`
(line 995): set(ALLOWED_COST_FUNCTIONS) - set("errorband"). -/
def band_cost_function_options : List String :=
  ALLOWED_COST_FUNCTIONS.filter (fun x => !(pyStringCharSet "errorband").contains x)

/-- Whether `OneOf` accepts `cf` as the `cost_function` of a band. -/
def band_cost_function_accepted (cf : String) : Bool :=
  band_cost_function_options.contains cf

/-- Which nested parameters schema `ParametersField._deserialize`
(lines 957-970) dispatches to, by the value of the type field. -/
inductive CostParamsSchema where
  | constant
  | timeofday
  | datetime
  | errorband
deriving Repr, DecidableEq

/-- Embedding of `ParametersField._deserialize` dispatch (lines 957-970). -/
def parameters_field_dispatch (type_ : Option String) :
    Except (String × String) CostParamsSchema :=
  if type_ == some "constant" then .ok .constant
  else if type_ == some "timeofday" then .ok .timeofday
  else if type_ == some "datetime" then .ok .datetime
  else if type_ == some "errorband" then .ok .errorband
  else .error ("type", "Invalid cost parameters type")

/-- Embedding of `ErrorBandCostParams.at_least_one_band` (lines 1039-1043). -/
def at_least_one_band {β : Type} (bands : List β) : Except (String × String) Unit :=
  if bands.length == 0 then .error ("bands", "Must provide at least one band")
  else .ok ()

/-! ## Schema validation: forecast site/aggregate reference
(schema.py lines 581-596) -/

/-- Embedding of `ForecastPostSchema.validate_forecast`: both ids set and
neither id set each raise, with distinct messages; otherwise control falls
through to `validate_if_event` (from `sfa_api.utils.validators`, a module of
this repository not under src/), whose outcome is the abstract `extra`. -/
def validate_forecast (extra : Except String Unit)
    (site_id aggregate_id : Option String) : Except String Unit :=
  if site_id.isSome && aggregate_id.isSome then
    .error ("Forecasts can only be associated with one site or one " ++
      "aggregate, so only site_id or aggregate_id may be provided")
  else if site_id.isNone && aggregate_id.isNone then
    .error "One of site_id or aggregate_id must be provided"
  else
    extra

/-! ## Schema validation: report cost references (schema.py lines 1152-1171) -/

/-- The error raised by `ReportParameters.validate_cost`: either the metrics
message or the per-object-pair error map keyed by pair index. -/
inductive ValidateCostError where
  | metricsError (msg : String)
  | objectPairsError (idxs : List Nat)
deriving Repr, DecidableEq

/-- The `for i, op in enumerate(object_pairs)` loop of `validate_cost`:
collect the indices of pairs whose `cost` value is not in `cost_names`. -/
def collectCostErrs (cost_names : List (Option String)) :
    List (Option String) → Nat → List Nat
  | [], _ => []
  | op :: rest, i =>
    (if cost_names.contains op then [] else [i]) ++
      collectCostErrs cost_names rest (i + 1)

/-- Embedding of `ReportParameters.validate_cost` (lines 1152-1171):
`costs` is the list of the names of the cost definitions (the `name` key
is a required field of `CostSchema`), `object_pairs` the list of the
(nullable) `cost` references of the pairs. -/
def validate_cost (metrics : List String) (costs : List String)
    (object_pairs : List (Option String)) : Except ValidateCostError Unit :=
  if metrics.contains "cost" && costs.length == 0 then
    .error (.metricsError
      "Must specify \x27costs\x27 parameters to calculate cost metric")
  else
    let cost_names : List (Option String) := costs.map some ++ [none]
    let errs := collectCostErrs cost_names object_pairs 0
    if errs.isEmpty then .ok ()
    else .error (.objectPairsError errs)

/-!
# Theorems
-/

/-- C9: for every time-series read (`read_observation_values`,
`read_forecast_values`, `read_cdf_forecast_values`, `read_aggregate_values`),
an omitted start bound defaults to 1970-01-01T00:00:01Z and an omitted end
bound defaults to 2038-01-19T03:14:07Z — the full representable timestamp
range — before the range scan is issued. -/
theorem value_reads_default_to_full_range {α : Type}
    (engine : String → PyDateTime → PyDateTime → α)
    (engineFx : String → String → PyDateTime → PyDateTime → α)
    (oid fid aid : String) (s e : PyDateTime) :
    read_observation_values engine oid none none =
      engine oid MINTIMESTAMP MAXTIMESTAMP ∧
    read_observation_values engine oid (some s) none = engine oid s MAXTIMESTAMP ∧
    read_observation_values engine oid none (some e) = engine oid MINTIMESTAMP e ∧
    read_forecast_values engineFx fid none none =
      engineFx "read_forecast_values" fid MINTIMESTAMP MAXTIMESTAMP ∧
    read_cdf_forecast_values engineFx fid none none =
      engineFx "read_cdf_forecast_values" fid MINTIMESTAMP MAXTIMESTAMP ∧
    read_aggregate_values engine aid none none =
      engine aid MINTIMESTAMP MAXTIMESTAMP ∧
    MINTIMESTAMP = ⟨1970, 1, 1, 0, 0, 1⟩ ∧
    MAXTIMESTAMP = ⟨2038, 1, 19, 3, 14, 7⟩ :=
  ⟨rfl, rfl, rfl, rfl, rfl, rfl, rfl, rfl⟩

/-- C10: the default `effective_until` of `remove_observation_from_aggregate`
is a single fixed timestamp captured once at module load, not the current
time of each call: two calls omitting it at different wall-clock times pass
the same `effective_until` (the module-load time) to the engine. -/
theorem remove_observation_default_fixed_at_load
    (load t1 t2 : PyDateTime) (agg obs : String) :
    remove_observation_from_aggregate load t1 agg obs none =
      remove_observation_from_aggregate load t2 agg obs none ∧
    remove_observation_from_aggregate load t1 agg obs none = (agg, obs, load) :=
  ⟨rfl, rfl⟩

/-- C5 (failing-input evaluation): the `OneOf` validator on the
`cost_function` of a cost band accepts the string "errorband" — the
expression set(ALLOWED_COST_FUNCTIONS) - set("errorband") subtracts the
set of the characters of the word, removing
no element — and `ParametersField._deserialize` then dispatches to the
errorband parameters schema, so errorband does nest inside errorband,
contrary to the claim; the at-least-one-band check does hold. -/
theorem errorband_nesting_accepted :
    band_cost_function_accepted "errorband" = true ∧
    parameters_field_dispatch (some "errorband") = .ok .errorband ∧
    at_least_one_band ([] : List Unit) =
      .error ("bands", "Must provide at least one band") := by
  refine ⟨by decide, rfl, rfl⟩

/-- C3: for each of the three RBAC edge creations, a duplicate edge
(engine IntegrityError 1062) is reported as a 400 `BadAPIRequest` — for
`add_object_to_permission` via the view handler modelled from the spec —
not as a silent success and not as an unclassified engine error; a
successful engine call returns success. -/
theorem duplicate_edge_is_client_error (msg : String) (rs : List Unit) :
    add_role_to_user (.err .integrityError 1062 msg) =
      .error (.badAPIRequest "user" "User already granted role.") ∧
    add_permission_to_role (.err .integrityError 1062 msg) =
      .error (.badAPIRequest "role" "Role already contains permission.") ∧
    add_object_to_permission_view (.err .integrityError 1062 msg) =
      .error (.badAPIRequest "permission" "Permission already acts upon object.") ∧
    add_role_to_user (.rows rs) = .ok () ∧
    add_permission_to_role (.rows rs) = .ok () ∧
    add_object_to_permission_view (.rows rs) = .ok () :=
  ⟨rfl, rfl, rfl, rfl, rfl, rfl⟩

/-- C7: `validate_forecast` rejects a payload with both `site_id` and
`aggregate_id` set (naming them mutually exclusive) and one with neither set
(requiring one of them), and a payload passing validation has exactly one of
the two non-null. -/
theorem forecast_site_aggregate_exclusive (extra : Except String Unit)
    (a b : String) (site_id aggregate_id : Option String) :
    validate_forecast extra (some a) (some b) =
      .error ("Forecasts can only be associated with one site or one " ++
        "aggregate, so only site_id or aggregate_id may be provided") ∧
    validate_forecast extra none none =
      .error "One of site_id or aggregate_id must be provided" ∧
    (exceptOk (validate_forecast extra site_id aggregate_id) = true →
      (site_id.isSome ^^ aggregate_id.isSome) = true) := by
  refine ⟨rfl, rfl, ?_⟩
  cases site_id <;> cases aggregate_id <;>
    simp [validate_forecast, exceptOk]

/-- Witness for C7 at a concrete accepted input: a payload with only
`site_id` set passes the both/neither checks and indeed has exactly one of
the two ids non-null. -/
theorem forecast_site_aggregate_exclusive_witness :
    ((some "abc" : Option String).isSome ^^
      (none : Option String).isSome) = true :=
  (forecast_site_aggregate_exclusive (.ok ()) "x" "y" (some "abc") none).2.2 rfl

/-- A single-object read over an id table returns the bare
`StorageAuthError()` whenever the object is missing or unreadable: both
causes make the procedure return the empty result set, and the `IndexError`
handler of `_call_procedure_for_single` maps that to one detail-free error. -/
theorem readById_fails (ids : List String) (canRead : String → String → Bool)
    (user oid : String)
    (h : ids.contains oid = false ∨ canRead user oid = false) :
    readById ids canRead user oid = .error (.storageAuthError none) := by
  have hc : (ids.contains oid && canRead user oid) = false := by
    rcases h with h | h <;> rw [h] <;> simp
  simp only [readById, singleReadRows, hc]
  rfl

/-- C1: every single-object read (`read_site`, `read_observation`,
`read_forecast`, `read_cdf_forecast_group`, `read_role`, `read_permission`,
`read_report`) raises the identical bare `StorageAuthError` — with no detail
distinguishing the two causes — both when the target does not exist and when
the caller may not read it; and the engine permission-denied error codes
1142/1143/1411/1216 are mapped by `try_query` to that same exception
class. -/
theorem single_read_conflates_missing_and_denied (db : Db) (user oid : String) :
    ((db.sites.contains oid = false ∨ db.canRead user oid = false) →
      read_site db user oid = .error (.storageAuthError none)) ∧
    ((db.aggregates.contains oid = false ∨ db.canRead user oid = false) →
      read_aggregate db user oid = .error (.storageAuthError none)) ∧
    ((db.roles.contains oid = false ∨ db.canRead user oid = false) →
      read_role db user oid = .error (.storageAuthError none)) ∧
    ((db.permissions.contains oid = false ∨ db.canRead user oid = false) →
      read_permission db user oid = .error (.storageAuthError none)) ∧
    ((db.reports.contains oid = false ∨ db.canRead user oid = false) →
      read_report db user oid = .error (.storageAuthError none)) ∧
    ((db.observations.find? (fun o => o.obs_id == oid) = none ∨
        db.canRead user oid = false) →
      read_observation db user oid = .error (.storageAuthError none)) ∧
    ((db.forecasts.find? (fun f => f.fx_id == oid) = none ∨
        db.canRead user oid = false) →
      read_forecast db user oid = .error (.storageAuthError none)) ∧
    ((db.cdfGroups.find? (fun f => f.fx_id == oid) = none ∨
        db.canRead user oid = false) →
      read_cdf_forecast_group db user oid = .error (.storageAuthError none)) ∧
    (∀ (cls : PyExcClass) (code : Nat) (msg : String),
      isAuthErrorCode code = true →
      (tryQueryErr cls code msg).isStorageAuthError = true) := by
  refine ⟨readById_fails _ _ _ _, readById_fails _ _ _ _,
    readById_fails _ _ _ _, readById_fails _ _ _ _, readById_fails _ _ _ _,
    ?_, ?_, ?_, ?_⟩
  · intro h
    rcases h with h | h <;>
      simp [read_observation, obsReadRows, h, callProcedureForSingle, try_query]
    cases db.observations.find? (fun o => o.obs_id == oid) <;>
      simp [callProcedureForSingle, try_query]
  · intro h
    rcases h with h | h <;>
      simp [read_forecast, fxReadRows, h, callProcedureForSingle, try_query]
    cases db.forecasts.find? (fun f => f.fx_id == oid) <;>
      simp [callProcedureForSingle, try_query]
  · intro h
    rcases h with h | h <;>
      simp [read_cdf_forecast_group, fxReadRows, h, callProcedureForSingle,
        try_query]
    cases db.cdfGroups.find? (fun f => f.fx_id == oid) <;>
      simp [callProcedureForSingle, try_query]
  · intro cls code msg h
    simp [tryQueryErr, h, SfaError.isStorageAuthError]

/-- Witness for C1 on the concrete state `dbObsOnly`: reading the existing
but unreadable "site1" and reading the nonexistent "nosite" produce the
literally identical error value. -/
theorem single_read_conflates_witness :
    read_site dbObsOnly "alice" "site1" = .error (.storageAuthError none) ∧
    read_site dbObsOnly "alice" "nosite" = .error (.storageAuthError none) :=
  ⟨(single_read_conflates_missing_and_denied dbObsOnly "alice" "site1").1
      (Or.inr (by decide)),
    (single_read_conflates_missing_and_denied dbObsOnly "alice" "nosite").1
      (Or.inl (by decide))⟩

/-- C2 counterexample: on `dbObsOnly` the caller can read "obs1" (the listed
subset is non-empty) yet `list_observations` invoked with the `site_id`
filter "site1" — a site the caller may not read — raises `StorageAuthError`,
so a listing operation invoked with a filter can raise an authorization
error, contrary to the claim. -/
theorem list_with_filter_raises_auth_error :
    list_observations dbObsOnly "alice" (some "site1") =
      .error (.storageAuthError none) ∧
    listObservationsRows dbObsOnly "alice" = [⟨"obs1", "site1"⟩] := by
  constructor <;> rfl

/-- C2 amended: a listing operation invoked without any filter never raises;
it returns the permitted subset. When a `site_id` (resp. `aggregate_id`)
filter is supplied, the filter object is first read via `read_site` (resp.
`read_aggregate`): a failure of that read propagates, and otherwise the
permitted subset restricted to the filter is returned. -/
theorem listing_ops_amended (db : Db) (user sid aid : String) :
    list_observations db user none = .ok (listObservationsRows db user) ∧
    list_forecasts db user none none =
      .ok (listFxRows db.forecasts db.canRead user) ∧
    list_cdf_forecast_groups db user none none =
      .ok (listFxRows db.cdfGroups db.canRead user) ∧
    list_observations db user (some sid) =
      (match read_site db user sid with
       | .error e => .error e
       | .ok _ => .ok ((listObservationsRows db user).filter
           (fun o => o.site_id == sid))) ∧
    list_forecasts db user (some sid) none =
      (match read_site db user sid with
       | .error e => .error e
       | .ok _ => .ok ((listFxRows db.forecasts db.canRead user).filter
           (fxFilter (some sid) none))) ∧
    list_forecasts db user none (some aid) =
      (match read_aggregate db user aid with
       | .error e => .error e
       | .ok _ => .ok ((listFxRows db.forecasts db.canRead user).filter
           (fxFilter none (some aid)))) ∧
    list_cdf_forecast_groups db user (some sid) none =
      (match read_site db user sid with
       | .error e => .error e
       | .ok _ => .ok ((listFxRows db.cdfGroups db.canRead user).filter
           (fxFilter (some sid) none))) ∧
    list_cdf_forecast_groups db user none (some aid) =
      (match read_aggregate db user aid with
       | .error e => .error e
       | .ok _ => .ok ((listFxRows db.cdfGroups db.canRead user).filter
           (fxFilter none (some aid)))) := by
  refine ⟨?_, ?_, ?_, ?_, ?_, ?_, ?_, ?_⟩
  · simp [list_observations, try_query]
  · simp [list_forecasts, try_query, fxFilter]
  · simp [list_cdf_forecast_groups, try_query, fxFilter]
  · cases h : read_site db user sid <;>
      simp [list_observations, h, Except.map, try_query]
  · cases h : read_site db user sid <;>
      simp [list_forecasts, h, Except.map, try_query]
  · cases h : read_aggregate db user aid <;>
      simp [list_forecasts, h, Except.map, try_query]
  · cases h : read_site db user sid <;>
      simp [list_cdf_forecast_groups, h, Except.map, try_query]
  · cases h : read_aggregate db user aid <;>
      simp [list_cdf_forecast_groups, h, Except.map, try_query]

/-- When the engine accepts every row, `executemany` inserts the whole batch
into the transaction buffer. -/
theorem executeMany_all_ok {α : Type}
    (rowAction : α → Option (PyExcClass × Nat × String)) (rows buf : List α)
    (h : ∀ r ∈ rows, rowAction r = none) :
    executeMany rowAction rows buf = .ok (buf ++ rows) := by
  induction rows generalizing buf with
  | nil => simp [executeMany]
  | cons r rest ih =>
    have hr : rowAction r = none := h r (by simp)
    simp [executeMany, hr]
    rw [ih (buf ++ [r]) (fun x hx => h x (by simp [hx]))]
    simp

/-- When some row is rejected by the engine, `executemany` raises. -/
theorem executeMany_exists_fail {α : Type}
    (rowAction : α → Option (PyExcClass × Nat × String)) (rows buf : List α)
    (h : ∃ r ∈ rows, rowAction r ≠ none) :
    ∃ e, executeMany rowAction rows buf = .error e := by
  induction rows generalizing buf with
  | nil => simp at h
  | cons r rest ih =>
    cases hr : rowAction r with
    | some e => exact ⟨e, by simp [executeMany, hr]⟩
    | none =>
      rcases h with ⟨x, hx, hxa⟩
      rcases List.mem_cons.mp hx with rfl | hx
      · exact absurd hr hxa
      · simpa [executeMany, hr] using ih (buf ++ [r]) ⟨x, hx, hxa⟩

/-- C6: a bulk time-series write (`store_observation_values`,
`store_forecast_values`, `store_cdf_forecast_values`) commits the batch only
when every row succeeds; if any row fails — including an authorization/
missing-object failure, whose engine code surfaces as `StorageAuthError` —
the transaction is rolled back and no row of the batch is committed. -/
theorem bulk_write_atomic {α : Type} (committed : List α)
    (rowAction : α → Option (PyExcClass × Nat × String)) (rows : List α) :
    ((∀ r ∈ rows, rowAction r = none) →
      store_values_batch committed rowAction rows = (.ok (), committed ++ rows)) ∧
    ((∃ r ∈ rows, rowAction r ≠ none) →
      exceptOk (store_values_batch committed rowAction rows).1 = false ∧
      (store_values_batch committed rowAction rows).2 = committed) ∧
    (∀ (r : α) (rest : List α) (cls : PyExcClass) (code : Nat) (msg : String),
      rowAction r = some (cls, code, msg) → isAuthErrorCode code = true →
      store_values_batch committed rowAction (r :: rest) =
        (.error (.storageAuthError (some msg)), committed)) := by
  refine ⟨?_, ?_, ?_⟩
  · intro h
    simp [store_values_batch, executeMany_all_ok rowAction rows [] h]
  · intro h
    rcases executeMany_exists_fail rowAction rows [] h with ⟨⟨cls, code, msg⟩, he⟩
    simp [store_values_batch, he, exceptOk]
  · intro r rest cls code msg hr hcode
    simp [store_values_batch, executeMany, hr, tryQueryErr, hcode]

/-- Witness for C6 on a concrete batch over `Nat` rows: a fully accepted
batch commits every row; a batch whose second row hits the engine
permission-denied code 1142 commits nothing and fails; a batch whose first
row hits 1142 raises `StorageAuthError` with the engine message. -/
theorem bulk_write_atomic_witness :
    store_values_batch [0]
        (fun n => if n == 2 then some (.integrityError, 1142, "denied") else none)
        [1] = (.ok (), [0, 1]) ∧
    (exceptOk (store_values_batch [0]
        (fun n => if n == 2 then some (.integrityError, 1142, "denied") else none)
        [1, 2, 3]).1 = false ∧
      (store_values_batch [0]
        (fun n => if n == 2 then some (.integrityError, 1142, "denied") else none)
        [1, 2, 3]).2 = [0]) ∧
    store_values_batch [0]
        (fun n => if n == 2 then some (.integrityError, 1142, "denied") else none)
        [2, 3] = (.error (.storageAuthError (some "denied")), [0]) :=
  ⟨(bulk_write_atomic [0] _ [1]).1 (by decide),
    (bulk_write_atomic [0] _ [1, 2, 3]).2.1 ⟨2, by decide, by decide⟩,
    (bulk_write_atomic [0] _ [2, 3]).2.2 2 [3] .integrityError 1142 "denied"
      (by decide) (by decide)⟩

/-- The enumeration loop of `validate_cost` collects no index exactly when
the cost reference of every object pair is among the allowed names. -/
theorem collectCostErrs_eq_nil_iff (names : List (Option String))
    (pairs : List (Option String)) (i : Nat) :
    collectCostErrs names pairs i = [] ↔
      ∀ c ∈ pairs, names.contains c = true := by
  induction pairs generalizing i with
  | nil => simp [collectCostErrs]
  | cons p rest ih =>
    cases h : names.contains p <;>
      simp [collectCostErrs, h, ih]

/-- Membership in the cost_names list (all definition names plus None): a
null reference
is always a member, a non-null one is a member exactly when it names one of
the cost definitions. -/
theorem contains_cost_names (costs : List String) (c : Option String) :
    (costs.map some ++ [none]).contains c = true ↔
      ∀ n : String, c = some n → n ∈ costs := by
  cases c <;> simp [List.contains, List.elem_iff]

/-- C8: `validate_cost` passes exactly when (a) the metric "cost" is not
requested with an empty/absent costs list and (b) every non-null cost
reference of every object pair names a cost definition of the payload (a null
reference is always accepted); requesting the "cost" metric with no cost
definitions yields the specific metrics error. -/
theorem report_cost_validation (metrics costs : List String)
    (object_pairs : List (Option String)) :
    (validate_cost metrics costs object_pairs = .ok () ↔
      ¬(metrics.contains "cost" = true ∧ costs = []) ∧
      ∀ c ∈ object_pairs, ∀ n : String, c = some n → n ∈ costs) ∧
    (metrics.contains "cost" = true → costs = [] →
      validate_cost metrics costs object_pairs =
        .error (.metricsError
          "Must specify \x27costs\x27 parameters to calculate cost metric")) ∧
    ((costs.map some ++ [none]).contains (none : Option String) = true) := by
  refine ⟨?_, ?_, by simp [List.contains, List.elem_iff]⟩
  · cases hcond : (metrics.contains "cost" && costs.length == 0) with
    | true =>
      have h1 : metrics.contains "cost" = true := by
        cases hx : metrics.contains "cost" <;> rw [hx] at hcond <;> simp_all
      have h2 : costs = [] := by
        cases costs with
        | nil => rfl
        | cons a t => rw [h1] at hcond; simp at hcond
      have hmem : "cost" ∈ metrics := List.elem_iff.mp h1
      constructor
      · intro hok
        simp [validate_cost] at hok
        rw [if_pos ⟨hmem, h2⟩] at hok
        exact Except.noConfusion hok
      · rintro ⟨hab, -⟩
        exact absurd ⟨h1, h2⟩ hab
    | false =>
      have hAB : ¬(metrics.contains "cost" = true ∧ costs = []) := by
        rintro ⟨h1, rfl⟩
        rw [h1] at hcond
        simp at hcond
      have hchar : collectCostErrs (costs.map some ++ [none]) object_pairs 0 = []
          ↔ ∀ c ∈ object_pairs, ∀ n : String, c = some n → n ∈ costs := by
        rw [collectCostErrs_eq_nil_iff]
        exact forall₂_congr (fun c _ => contains_cost_names costs c)
      cases hE : (collectCostErrs (costs.map some ++ [none]) object_pairs 0).isEmpty with
      | false =>
        have hne : ¬(collectCostErrs (costs.map some ++ [none]) object_pairs 0 = []) := by
          intro hx
          rw [hx] at hE
          simp at hE
        constructor
        · intro hok
          simp [validate_cost, hE] at hok
          split at hok <;> exact Except.noConfusion hok
        · rintro ⟨-, hall⟩
          exact absurd (hchar.mpr hall) hne
      | true =>
        have hnil : collectCostErrs (costs.map some ++ [none]) object_pairs 0 = [] :=
          List.isEmpty_iff.mp hE
        have hc : ¬("cost" ∈ metrics ∧ costs = []) := by
          rintro ⟨hm, hn⟩
          exact hAB ⟨List.elem_iff.mpr hm, hn⟩
        constructor
        · intro _h
          exact ⟨hAB, hchar.mp hnil⟩
        · intro _h
          simp [validate_cost, hc, hnil]
  · intro h1 h2
    have hc : "cost" ∈ metrics ∧ costs = [] := ⟨List.elem_iff.mp h1, h2⟩
    simp [validate_cost, hc]

/-- Witness for C8: requesting the "cost" metric with no cost definitions
fails with the metrics error. -/
theorem report_cost_validation_witness :
    validate_cost ["cost"] [] [] =
      .error (.metricsError
        "Must specify \x27costs\x27 parameters to calculate cost metric") :=
  (report_cost_validation ["cost"] [] []).2.1 rfl rfl

/-- The error map built by filtering a name list and tagging each survivor
with a message mentions key `k` exactly when `k` is a filtered name. -/
theorem hasKey_filter_tag (l : List String) (p : String → Bool) (m k : String) :
    hasKey ((l.filter p).map (fun s => (s, m))) k = (l.contains k && p k) := by
  simp only [hasKey]
  rw [Bool.eq_iff_iff]
  simp [List.any_eq_true, List.mem_filter, List.elem_iff]

/-- Key lookup distributes over concatenated error maps. -/
theorem hasKey_append (a b : List (String × String)) (k : String) :
    hasKey (a ++ b) k = (hasKey a k || hasKey b k) := by
  simp [hasKey, List.any_append]

/-- An error map is empty exactly when it mentions no key at all. -/
theorem isEmpty_iff_no_keys (E : List (String × String)) :
    E.isEmpty = true ↔ ∀ k, hasKey E k = false := by
  cases E with
  | nil => simp [hasKey]
  | cons a t =>
    simp only [List.isEmpty_cons]
    constructor
    · intro h
      exact absurd h (by simp)
    · intro h
      have := h a.1
      simp [hasKey] at this

/-- A list does not contain an element that is not a member. -/
theorem contains_eq_false_of_not_mem {l : List String} {k : String}
    (h : k ∉ l) : l.contains k = false := by
  cases hcc : l.contains k with
  | false => rfl
  | true => exact absurd (List.elem_iff.mp hcc) h

/-- Shared shape of the three branches of `validate_modeling_parameters`:
if an error map `E` agrees with a violation predicate on the twelve fields
and mentions no other key, then raising iff `E` is non-empty accepts exactly
the violation-free inputs and otherwise reports exactly the violated
fields. -/
theorem branch_master (E : List (String × String)) (viol : String → Bool)
    (hpoint : ∀ k ∈ allParamFields, hasKey E k = viol k)
    (hout : ∀ k, k ∉ allParamFields → hasKey E k = false) :
    ((if E.isEmpty then (Except.ok () : Except (List (String × String)) Unit)
        else Except.error E) = Except.ok () ↔
      ∀ k ∈ allParamFields, viol k = false) ∧
    (∀ e, (if E.isEmpty then (Except.ok () : Except (List (String × String)) Unit)
        else Except.error E) = Except.error e →
      ∀ k ∈ allParamFields, hasKey e k = viol k) := by
  have hEmptyIff : E.isEmpty = true ↔ ∀ k ∈ allParamFields, viol k = false := by
    rw [isEmpty_iff_no_keys]
    constructor
    · intro hall k hk
      rw [← hpoint k hk]
      exact hall k
    · intro hres k
      by_cases hk : k ∈ allParamFields
      · rw [hpoint k hk]
        exact hres k hk
      · exact hout k hk
  constructor
  · cases hE : E.isEmpty with
    | true => exact iff_of_true (by simp [hE]) (hEmptyIff.mp hE)
    | false =>
      refine iff_of_false (by simp [hE]) (fun hres => ?_)
      rw [hEmptyIff.mpr hres] at hE
      exact Bool.noConfusion hE
  · intro e he
    cases hE : E.isEmpty with
    | true => simp [hE] at he
    | false =>
      have heq : E = e := by simpa [hE] using he
      subst heq
      exact hpoint

/-- C4: `validate_modeling_parameters` rejects an input (whose
`tracking_type` passed the field-level `OneOf`) exactly when the field
partition the spec gives for the declared tracking type is violated, and on
rejection the error map mentions exactly the violated field names — every
one of them, not only the first. -/
theorem modeling_parameters_partition {V : Type} (d : ModelingParameters V)
    (htt : tracking_type_field_valid d.tracking_type = true) :
    (validate_modeling_parameters d = .ok () ↔
      ∀ k ∈ allParamFields, specFieldViolated d k = false) ∧
    (∀ e, validate_modeling_parameters d = .error e →
      ∀ k ∈ allParamFields, hasKey e k = specFieldViolated d k) := by
  rcases hT : d.tracking_type with _ | tt
  · have hveq : validate_modeling_parameters d =
        if (errorsNull d).isEmpty then .ok () else .error (errorsNull d) := by
      simp [validate_modeling_parameters, hT]
    have hkeyN : ∀ k, hasKey (errorsNull d) k =
        (allParamFields.contains k && fieldNotNone d k) := fun k =>
      hasKey_filter_tag _ _ _ _
    have hpoint : ∀ k ∈ allParamFields,
        hasKey (errorsNull d) k = specFieldViolated d k := by
      intro k hk
      rw [hkeyN k]
      fin_cases hk <;>
        simp [specFieldViolated, paramClass, requiredFor, fieldNotNone, hT,
          allParamFields, common_fields, fixed_fields, singleaxis_fields,
          List.contains_cons]
    have hout : ∀ k, k ∉ allParamFields → hasKey (errorsNull d) k = false := by
      intro k hk
      rw [hkeyN k, contains_eq_false_of_not_mem hk]
      rfl
    rw [hveq]
    exact branch_master _ _ hpoint hout
  · simp only [tracking_type_field_valid, hT] at htt
    have hcase : tt = "fixed" ∨ tt = "single_axis" := by
      simpa using htt
    rcases hcase with rfl | rfl
    · have hveq : validate_modeling_parameters d =
          if (errorsFixed d).isEmpty then .ok () else .error (errorsFixed d) := by
        simp [validate_modeling_parameters, hT]
      have hkeyF : ∀ k, hasKey (errorsFixed d) k =
          ((singleaxis_fields.contains k && fieldNotNone d k) ||
            ((common_fields ++ fixed_fields).contains k && !fieldNotNone d k)) := by
        intro k
        simp only [errorsFixed, hasKey_append, hasKey_filter_tag]
      have hpoint : ∀ k ∈ allParamFields,
          hasKey (errorsFixed d) k = specFieldViolated d k := by
        intro k hk
        rw [hkeyF k]
        fin_cases hk <;>
          simp [specFieldViolated, paramClass, requiredFor, fieldNotNone, hT,
            common_fields, fixed_fields, singleaxis_fields, List.contains_cons]
      have hout : ∀ k, k ∉ allParamFields → hasKey (errorsFixed d) k = false := by
        intro k hk
        have hk3 : ¬(k ∈ common_fields ∨ k ∈ fixed_fields ∨ k ∈ singleaxis_fields) := by
          intro hx
          apply hk
          simp [allParamFields, List.mem_append]
          tauto
        push_neg at hk3
        rw [hkeyF k, contains_eq_false_of_not_mem hk3.2.2,
          contains_eq_false_of_not_mem
            (fun hm => (List.mem_append.mp hm).elim hk3.1 hk3.2.1)]
        rfl
      rw [hveq]
      exact branch_master _ _ hpoint hout
    · have hveq : validate_modeling_parameters d =
          if (errorsSingleAxis d).isEmpty then .ok ()
          else .error (errorsSingleAxis d) := by
        simp [validate_modeling_parameters, hT]
      have hkeyS : ∀ k, hasKey (errorsSingleAxis d) k =
          ((fixed_fields.contains k && fieldNotNone d k) ||
            ((common_fields ++ singleaxis_fields).contains k && !fieldNotNone d k)) := by
        intro k
        simp only [errorsSingleAxis, hasKey_append, hasKey_filter_tag]
      have hpoint : ∀ k ∈ allParamFields,
          hasKey (errorsSingleAxis d) k = specFieldViolated d k := by
        intro k hk
        rw [hkeyS k]
        fin_cases hk <;>
          simp [specFieldViolated, paramClass, requiredFor, fieldNotNone, hT,
            common_fields, fixed_fields, singleaxis_fields, List.contains_cons]
      have hout : ∀ k, k ∉ allParamFields → hasKey (errorsSingleAxis d) k = false := by
        intro k hk
        have hk3 : ¬(k ∈ common_fields ∨ k ∈ fixed_fields ∨ k ∈ singleaxis_fields) := by
          intro hx
          apply hk
          simp [allParamFields, List.mem_append]
          tauto
        push_neg at hk3
        rw [hkeyS k, contains_eq_false_of_not_mem hk3.2.1,
          contains_eq_false_of_not_mem
            (fun hm => (List.mem_append.mp hm).elim hk3.1 hk3.2.2)]
        rfl
      rw [hveq]
      exact branch_master _ _ hpoint hout

/-- Witness for C4: the all-null payload (tracking_type null) passes
validation via the iff of the theorem, the field-level tracking validator
discharged at `rfl`. -/
theorem modeling_parameters_partition_witness :
    validate_modeling_parameters dmpNull = .ok () :=
  (modeling_parameters_partition dmpNull rfl).1.mpr (by decide)

end SfaApi
